import Mathlib

/-!
# SecureChain core: shallow embedding and verification

This file embeds, in Lean 4, the core of the SecureChain smart-contract
auditing tool (structural parser, EVM plugin heuristic battery, analysis
orchestrator, severity normalization and scoring), translated from the Rust
sources under `src/SecureChain/src/`, and proves or refutes the frozen
claims about it.

Modelling conventions:
* Rust `String` becomes Lean `String`; `f64` values that only ever hold
  exact decimal constants (scores, penalties, confidences) become `ℚ`,
  on which the source's arithmetic is exact.
* Fallible Rust functions (`Result<T>`) become `Except String T`.
* External collaborators (the Slither/Mythril/Echidna processes and the
  AI service) are inputs: functions supplied in an environment record.
  A claim of the form "backend X is never invoked" is rendered as
  "the result is the same for every environment" plus the error value.
* `uuid::Uuid::new_v4()` (a fresh random identifier) is modelled as the
  placeholder `""`; no claim depends on the `id` field.
* The module `report/vulnerability.rs` is declared but absent from the
  sources; the `Vulnerability` record and `VulnerabilityCategory` enum
  below are reconstructed from their construction/match sites in
  `analyzer.rs` / `evm.rs` / `ai_assist.rs` and, for the category list,
  modelled from the spec (§3 Finding: closed category enumeration).
-/

namespace SecureChain

/-- Modelled from the spec: the closed category enumeration of §3
(`report/vulnerability.rs` is missing from the sources; the variant names
appearing in `analyzer.rs`, `evm.rs`, `ai_assist.rs` and
`report/generator.rs` all occur in this list). -/
inductive VulnerabilityCategory where
  | Reentrancy
  | AccessControl
  | IntegerOverflow
  | UnhandledExceptions
  | TimestampDependence
  | LowLevelCalls
  | DenialOfService
  | Fuzzing
  | SymbolicExecution
  | InputValidation
  | CodeQuality
  | Other
deriving DecidableEq, Repr, BEq, Inhabited

/-- Modelled from the spec (§3 Finding) and the construction sites in
`analyzer.rs`/`evm.rs`/`ai_assist.rs`: the canonical vulnerability record
(`report/vulnerability.rs` itself is missing from the sources). -/
structure Vulnerability where
  id : String
  title : String
  description : String
  severity : String
  category : VulnerabilityCategory
  file_path : String
  line_number : Option Nat
  code_snippet : Option String
  recommendation : Option String
  references : List String
  cwe_id : Option String
  tool : String
  confidence : ℚ
deriving DecidableEq, Repr, Inhabited

/-- `calculate_security_score` from `src/core/analyzer.rs` lines 550-569:
start from 100.0, subtract a per-severity penalty for each vulnerability,
clamp below at 0.0 (the empty list returns 100.0 directly). -/
def calculate_security_score (vulnerabilities : List Vulnerability) : ℚ :=
  if vulnerabilities.isEmpty then 100
  else
    let score := vulnerabilities.foldl
      (fun score vuln =>
        let penalty : ℚ :=
          if vuln.severity = "Critical" then 25
          else if vuln.severity = "High" then 15
          else if vuln.severity = "Medium" then 8
          else if vuln.severity = "Low" then 3
          else 1
        score - penalty) 100
    max score 0

/-- The per-severity weight exactly as the claim/spec words it:
Critical 25, High 15, Medium 8, Low 3, any other severity 1. -/
def spec_severity_weight (severity : String) : ℚ :=
  if severity = "Critical" then 25
  else if severity = "High" then 15
  else if severity = "Medium" then 8
  else if severity = "Low" then 3
  else 1

/-- The security score exactly as the claim/spec words it: 100.0 minus the
sum of the per-severity weights over the findings, clamped below at 0.0. -/
def spec_security_score (vulnerabilities : List Vulnerability) : ℚ :=
  max 0 (100 - ((vulnerabilities.map (fun v => spec_severity_weight v.severity)).sum))

lemma security_score_foldl (vulnerabilities : List Vulnerability) (init : ℚ) :
    vulnerabilities.foldl
      (fun score vuln =>
        let penalty : ℚ :=
          if vuln.severity = "Critical" then 25
          else if vuln.severity = "High" then 15
          else if vuln.severity = "Medium" then 8
          else if vuln.severity = "Low" then 3
          else 1
        score - penalty) init
      = init - ((vulnerabilities.map (fun v => spec_severity_weight v.severity)).sum) := by
  induction vulnerabilities generalizing init with
  | nil => simp
  | cons v vs ih =>
    simp only [List.foldl_cons, List.map_cons, List.sum_cons, ih, spec_severity_weight]
    ring

lemma security_score_eq_spec (vulnerabilities : List Vulnerability) :
    calculate_security_score vulnerabilities = spec_security_score vulnerabilities := by
  unfold calculate_security_score spec_security_score
  by_cases h : vulnerabilities.isEmpty
  · simp [h, List.isEmpty_iff.mp h]
  · simp only [h, if_false, security_score_foldl]
    exact max_comm _ _

lemma spec_severity_weight_pos (s : String) : 0 < spec_severity_weight s := by
  unfold spec_severity_weight
  split <;> norm_num
  split <;> norm_num
  split <;> norm_num
  split <;> norm_num

/-- Rust `str::contains(needle)`: substring containment. -/
def strContainsAux (needle : List Char) : List Char → Bool
  | [] => needle.isPrefixOf []
  | c :: rest => needle.isPrefixOf (c :: rest) || strContainsAux needle rest

/-- `hay.contains(needle)` on Rust strings. -/
def strContainsSub (hay needle : String) : Bool :=
  strContainsAux needle.data hay.data

/-- C1: for every list of findings, the computed security score equals
100.0 minus the sum over the findings of the per-severity weight
(Critical 25, High 15, Medium 8, Low 3, any other severity 1), clamped
below at 0.0. -/
theorem calculate_security_score_is_spec (vulnerabilities : List Vulnerability) :
    calculate_security_score vulnerabilities
      = max 0 (100 - ((vulnerabilities.map (fun v => spec_severity_weight v.severity)).sum)) :=
  security_score_eq_spec vulnerabilities

/-- C7: appending one more finding never increases the security score, and
the security score always lies in the closed interval [0, 100]. -/
theorem calculate_security_score_monotone_bounded
    (vulnerabilities : List Vulnerability) (extra : Vulnerability) :
    calculate_security_score (vulnerabilities ++ [extra]) ≤ calculate_security_score vulnerabilities
      ∧ 0 ≤ calculate_security_score vulnerabilities
      ∧ calculate_security_score vulnerabilities ≤ 100 := by
  have hsum_nonneg : ∀ l : List Vulnerability,
      0 ≤ ((l.map (fun v => spec_severity_weight v.severity)).sum) := by
    intro l
    apply List.sum_nonneg
    intro x hx
    obtain ⟨v, _, rfl⟩ := List.mem_map.mp hx
    exact le_of_lt (spec_severity_weight_pos _)
  refine ⟨?_, ?_, ?_⟩
  · rw [security_score_eq_spec, security_score_eq_spec]
    unfold spec_security_score
    apply max_le_max le_rfl
    have : 0 ≤ spec_severity_weight extra.severity := le_of_lt (spec_severity_weight_pos _)
    simp only [List.map_append, List.sum_append, List.map_cons, List.map_nil, List.sum_cons,
      List.sum_nil]
    linarith
  · rw [security_score_eq_spec]
    exact le_max_left 0 _
  · rw [security_score_eq_spec]
    unfold spec_security_score
    have := hsum_nonneg vulnerabilities
    apply max_le (by norm_num) (by linarith)

/-- `Parameter` from `src/core/parser.rs`. -/
structure Parameter where
  name : String
  type_name : String
  indexed : Bool
deriving DecidableEq, Repr, Inhabited

/-- `FunctionInfo` from `src/core/parser.rs`. -/
structure FunctionInfo where
  name : String
  visibility : String
  state_mutability : String
  parameters : List Parameter
  return_parameters : List Parameter
  modifiers : List String
  line_number : Nat
  body : String
  is_constructor : Bool
  is_fallback : Bool
  is_receive : Bool
deriving DecidableEq, Repr, Inhabited

/-- `StateVariable` from `src/core/parser.rs`. -/
structure StateVariable where
  name : String
  type_name : String
  visibility : String
  is_constant : Bool
  is_immutable : Bool
  initial_value : Option String
  line_number : Nat
deriving DecidableEq, Repr, Inhabited

/-- `ModifierInfo` from `src/core/parser.rs`. -/
structure ModifierInfo where
  name : String
  parameters : List Parameter
  body : String
  line_number : Nat
deriving DecidableEq, Repr, Inhabited

/-- `EventInfo` from `src/core/parser.rs`. -/
structure EventInfo where
  name : String
  parameters : List Parameter
  anonymous : Bool
  line_number : Nat
deriving DecidableEq, Repr, Inhabited

/-- `ParsedContract` from `src/core/parser.rs` (the `HashMap<String,String>`
metadata becomes an association list). -/
structure ParsedContract where
  name : String
  source_code : String
  functions : List FunctionInfo
  state_variables : List StateVariable
  modifiers : List ModifierInfo
  events : List EventInfo
  imports : List String
  inheritance : List String
  compiler_version : String
  pragma_directives : List String
  license : Option String
  metadata : List (String × String)
deriving DecidableEq, Repr, Inhabited

/-- `ContractInfo` from `src/core/fetcher.rs`. -/
structure ContractInfo where
  name : String
  address : String
  source_code : String
  compiler_version : String
  optimization : Bool
  network : String
  verified : Bool
  metadata : List (String × String)
deriving DecidableEq, Repr, Inhabited

/-! ## EVM plugin heuristic battery (`src/plugins/evm.rs`) -/

/-- The "Use of tx.origin" finding pushed by `run_basic_checks`
(`src/plugins/evm.rs` lines 273-289); the `uuid` id is modelled as `""`. -/
def tx_origin_vuln (contract : ParsedContract) : Vulnerability :=
  { id := ""
    title := "Use of tx.origin"
    description := "The contract uses tx.origin for authorization, which can be exploited in phishing attacks."
    severity := "High"
    category := VulnerabilityCategory.AccessControl
    file_path := contract.name
    line_number := none
    code_snippet := none
    recommendation := some "Use msg.sender instead of tx.origin for authorization checks."
    references := ["https://consensys.github.io/smart-contract-best-practices/recommendations/#avoid-using-txorigin"]
    cwe_id := some "CWE-477"
    tool := "EVM Plugin"
    confidence := 9/10 }

/-- The "Use of selfdestruct/suicide" finding pushed by `run_basic_checks`
(`src/plugins/evm.rs` lines 292-308). -/
def selfdestruct_vuln (contract : ParsedContract) : Vulnerability :=
  { id := ""
    title := "Use of selfdestruct/suicide"
    description := "The contract uses selfdestruct which can lead to unexpected behavior."
    severity := "Medium"
    category := VulnerabilityCategory.CodeQuality
    file_path := contract.name
    line_number := none
    code_snippet := none
    recommendation := some "Consider alternative patterns to contract destruction."
    references := ["https://consensys.github.io/smart-contract-best-practices/recommendations/#be-aware-of-the-tradeoffs-between-send-transfer-and-callvalue"]
    cwe_id := none
    tool := "EVM Plugin"
    confidence := 7/10 }

/-- The "Unchecked External Call" finding pushed by `run_basic_checks`
(`src/plugins/evm.rs` lines 311-327). -/
def unchecked_call_vuln (contract : ParsedContract) : Vulnerability :=
  { id := ""
    title := "Unchecked External Call"
    description := "The contract makes external calls without checking return values."
    severity := "High"
    category := VulnerabilityCategory.UnhandledExceptions
    file_path := contract.name
    line_number := none
    code_snippet := none
    recommendation := some "Always check return values of external calls and handle failures appropriately."
    references := ["https://consensys.github.io/smart-contract-best-practices/recommendations/#handle-errors-in-external-calls"]
    cwe_id := some "CWE-252"
    tool := "EVM Plugin"
    confidence := 8/10 }

/-- The per-function "Potential Gas Limit Issue" finding pushed by
`run_basic_checks` (`src/plugins/evm.rs` lines 330-348). -/
def gas_limit_vuln (contract : ParsedContract) (f : FunctionInfo) : Vulnerability :=
  { id := ""
    title := "Potential Gas Limit Issue in " ++ f.name
    description := "Function contains loops that might exceed gas limits."
    severity := "Medium"
    category := VulnerabilityCategory.DenialOfService
    file_path := contract.name
    line_number := some f.line_number
    code_snippet := none
    recommendation := some "Implement gas-efficient alternatives or add proper bounds checking."
    references := ["https://consensys.github.io/smart-contract-best-practices/recommendations/#gas-limit-dos-on-a-contract-via-unbounded-operations"]
    cwe_id := some "CWE-400"
    tool := "EVM Plugin"
    confidence := 6/10 }

/-- `run_basic_checks` from `src/plugins/evm.rs` lines 269-351: four
independent textual checks, each appending one finding when its pattern
matches (the last one per function containing a loop). Always `Ok` in the
source; the list of pushed findings is returned directly. -/
def run_basic_checks (contract : ParsedContract) : List Vulnerability :=
  (if strContainsSub contract.source_code "tx.origin" then [tx_origin_vuln contract] else [])
  ++ (if strContainsSub contract.source_code "suicide("
        || strContainsSub contract.source_code "selfdestruct(" then
        [selfdestruct_vuln contract] else [])
  ++ (if strContainsSub contract.source_code ".call("
        && !strContainsSub contract.source_code "require(" then
        [unchecked_call_vuln contract] else [])
  ++ contract.functions.filterMap (fun f =>
      if strContainsSub f.body "while(" || strContainsSub f.body "for(" then
        some (gas_limit_vuln contract f)
      else none)

/-- `EVMPlugin::analyze_contract` from `src/plugins/evm.rs` lines 363-378.
External collaborators are inputs: `slither_available` models
`is_slither_available()`, `runtime` the fallible `tokio::runtime::Runtime::new()`
(whose error propagates), and `slither_result` the outcome of
`run_slither_analysis` (whose error is logged and swallowed). -/
def evm_analyze_contract (slither_available : Bool)
    (runtime : Except String Unit)
    (slither_result : Except String (List Vulnerability))
    (contract : ParsedContract) : Except String (List Vulnerability) :=
  let vulnerabilities := run_basic_checks contract
  if slither_available then
    match runtime with
    | Except.error e => Except.error e
    | Except.ok _ =>
      match slither_result with
      | Except.ok slither_vulns => Except.ok (vulnerabilities ++ slither_vulns)
      | Except.error _ => Except.ok vulnerabilities
  else Except.ok vulnerabilities

/-- C10: the EVM plugin battery emits its "Unchecked External Call" finding
(the unique battery finding with category `UnhandledExceptions`) exactly when
the source contains the substring `.call(` and contains no occurrence of
`require(` anywhere in the file; any `require(` suppresses it. -/
theorem unchecked_external_call_iff (contract : ParsedContract) :
    ((run_basic_checks contract).any (fun v =>
        v.category == VulnerabilityCategory.UnhandledExceptions
          && v.title == "Unchecked External Call"))
      = (strContainsSub contract.source_code ".call("
          && !strContainsSub contract.source_code "require(") := by
  unfold run_basic_checks
  simp only [List.any_append]
  have h1 : (if strContainsSub contract.source_code "tx.origin"
      then [tx_origin_vuln contract] else []).any (fun v =>
        v.category == VulnerabilityCategory.UnhandledExceptions
          && v.title == "Unchecked External Call") = false := by
    split <;> simp [tx_origin_vuln]
  have h2 : (if strContainsSub contract.source_code "suicide("
        || strContainsSub contract.source_code "selfdestruct("
      then [selfdestruct_vuln contract] else []).any (fun v =>
        v.category == VulnerabilityCategory.UnhandledExceptions
          && v.title == "Unchecked External Call") = false := by
    split <;> simp [selfdestruct_vuln]
  have h4 : (contract.functions.filterMap (fun f =>
      if strContainsSub f.body "while(" || strContainsSub f.body "for(" then
        some (gas_limit_vuln contract f)
      else none)).any (fun v =>
        v.category == VulnerabilityCategory.UnhandledExceptions
          && v.title == "Unchecked External Call") = false := by
    rw [List.any_eq_false]
    intro v hv
    obtain ⟨f, _, hf⟩ := List.mem_filterMap.mp hv
    by_cases hc : strContainsSub f.body "while(" || strContainsSub f.body "for("
    · simp only [hc, if_true, Option.some.injEq] at hf
      subst hf
      simp only [gas_limit_vuln]
      rw [Bool.and_eq_true]
      rintro ⟨hcontra, -⟩
      exact absurd hcontra (by decide)
    · simp [hc] at hf
  rw [h1, h2, h4]
  simp only [Bool.false_or, Bool.or_false]
  by_cases hc : strContainsSub contract.source_code ".call("
      && !strContainsSub contract.source_code "require("
  · simp only [hc, if_true]
    simp only [unchecked_call_vuln, List.any_cons, List.any_nil, Bool.or_false]
    decide
  · simp [hc]

/-- C2 (amended): the EVM plugin's built-in heuristic battery never produces
a finding whose category is `Reentrancy`, for any contract model. -/
theorem run_basic_checks_never_reentrancy (contract : ParsedContract)
    (v : Vulnerability) (hv : v ∈ run_basic_checks contract) :
    v.category ≠ VulnerabilityCategory.Reentrancy := by
  unfold run_basic_checks at hv
  simp only [List.mem_append] at hv
  rcases hv with ((h | h) | h) | h
  · by_cases hc : strContainsSub contract.source_code "tx.origin"
    · simp only [hc, if_true, List.mem_singleton] at h
      subst h; simp [tx_origin_vuln]
    · simp [hc] at h
  · by_cases hc : strContainsSub contract.source_code "suicide("
        || strContainsSub contract.source_code "selfdestruct("
    · simp only [hc, if_true, List.mem_singleton] at h
      subst h; simp [selfdestruct_vuln]
    · simp [hc] at h
  · by_cases hc : strContainsSub contract.source_code ".call("
        && !strContainsSub contract.source_code "require("
    · simp only [hc, if_true, List.mem_singleton] at h
      subst h; simp [unchecked_call_vuln]
    · simp [hc] at h
  · obtain ⟨f, _, hf⟩ := List.mem_filterMap.mp h
    by_cases hc : strContainsSub f.body "while(" || strContainsSub f.body "for("
    · simp only [hc, if_true, Option.some.injEq] at hf
      subst hf; simp [gas_limit_vuln]
    · simp [hc] at hf

/-! ## A small regex engine

`src/core/parser.rs` drives eight `regex::Regex` patterns. The engine below
implements the match semantics of the `regex` crate (leftmost match,
preferring earlier alternatives and greedy repetition — Perl preference
order, which the crate guarantees) for exactly the constructs those eight
patterns use, with numbered capture groups. A `fuel` counter bounds the
number of backtracking steps; every use in this development stays far below
the bound. -/

/-- Regex abstract syntax: single characters, character classes, sequencing,
alternation (preferring the left alternative), greedy star and option, and
numbered capture groups. -/
inductive RE where
  | eps : RE
  | chr : Char → RE
  | cls : (Char → Bool) → RE
  | seq : RE → RE → RE
  | alt : RE → RE → RE
  | star : RE → RE
  | opt : RE → RE
  | grp : Nat → RE → RE

/-- Captures: group number ↦ captured substring. -/
def Caps := List (Nat × String)
deriving DecidableEq, Repr, Inhabited

/-- Look up capture group `i` (`None` when the group did not participate). -/
def capsGet (caps : Caps) (i : Nat) : Option String :=
  ((caps : List (Nat × String)).find? (fun p => p.1 == i)).map (fun p => p.2)

/-- Record capture group `i`, replacing any previous value. -/
def capsSet (caps : Caps) (i : Nat) (s : String) : Caps :=
  ((caps : List (Nat × String)).filter (fun p => p.1 != i)) ++ [(i, s)]

/-- Backtracking matcher in continuation-passing style: try to match `r`
against a prefix of `s` starting from captures `caps`, calling `k` on the
remaining input for each candidate in preference order, first success wins.
A `star` iteration must consume input (the engine stops iterating on an
empty body match, as real engines do; every star body in the patterns below
consumes at least one character anyway). -/
def reMatch (fuel : Nat) (r : RE) (s : List Char) (caps : Caps)
    (k : List Char → Caps → Option (Nat × Caps)) : Option (Nat × Caps) :=
  match fuel with
  | 0 => none
  | fuel + 1 =>
    match r with
    | RE.eps => k s caps
    | RE.chr c =>
      match s with
      | [] => none
      | c2 :: rest => if c2 = c then k rest caps else none
    | RE.cls p =>
      match s with
      | [] => none
      | c2 :: rest => if p c2 then k rest caps else none
    | RE.seq a b => reMatch fuel a s caps (fun s2 caps2 => reMatch fuel b s2 caps2 k)
    | RE.alt a b =>
      match reMatch fuel a s caps k with
      | some res => some res
      | none => reMatch fuel b s caps k
    | RE.opt a =>
      match reMatch fuel a s caps k with
      | some res => some res
      | none => k s caps
    | RE.star a =>
      match reMatch fuel a s caps (fun s2 caps2 =>
          if s2.length < s.length then reMatch fuel (RE.star a) s2 caps2 k else none) with
      | some res => some res
      | none => k s caps
    | RE.grp i a =>
      reMatch fuel a s caps (fun s2 caps2 =>
        k s2 (capsSet caps2 i (String.mk (s.take (s.length - s2.length)))))

/-- Fuel used for one anchored match attempt. -/
def reFuel (s : List Char) : Nat := 2000 * (s.length + 5)

/-- Try to match `r` at the very start of `s`; on success return the number
of characters consumed and the captures. -/
def reMatchAt (r : RE) (s : List Char) : Option (Nat × Caps) :=
  reMatch (reFuel s) r s ([] : List (Nat × String))
    (fun rest caps => some (s.length - rest.length, caps))

/-- Leftmost search: first position (scanning left to right) where `r`
matches; returns (start, length, captures). -/
def reSearch (r : RE) (s : List Char) : Option (Nat × Nat × Caps) :=
  match s with
  | [] =>
    match reMatchAt r [] with
    | some (len, caps) => some (0, len, caps)
    | none => none
  | c :: rest =>
    match reMatchAt r (c :: rest) with
    | some (len, caps) => some (0, len, caps)
    | none => (reSearch r rest).map (fun t => (t.1 + 1, t.2.1, t.2.2))

/-- `Regex::captures`: captures of the leftmost match. -/
def reCaptures (r : RE) (s : String) : Option Caps :=
  (reSearch r s.data).map (fun t => t.2.2)

/-- Iterated search for `Regex::captures_iter`: each next search starts at
the end of the previous match (one past it for an empty match, as in the
`regex` crate). -/
def reFindAllAux (r : RE) (iterfuel : Nat) (s : List Char) : List Caps :=
  match iterfuel with
  | 0 => []
  | n + 1 =>
    match reSearch r s with
    | none => []
    | some (start, len, caps) => caps :: reFindAllAux r n (s.drop (start + max len 1))

/-- `Regex::captures_iter`: captures of all successive non-overlapping
matches. -/
def reFindAll (r : RE) (s : String) : List Caps :=
  reFindAllAux r (s.data.length + 1) s.data

/-! ### The eight patterns of `src/core/parser.rs`, transliterated -/

/-- Literal string. -/
def strRE (s : String) : RE :=
  s.data.foldr (fun c acc => RE.seq (RE.chr c) acc) RE.eps

/-- `r+` as `r r*`. -/
def plusRE (r : RE) : RE := RE.seq r (RE.star r)

/-- `\w` (the sources only ever see ASCII identifiers). -/
def reIsWordChar (c : Char) : Bool := c.isAlphanum || c = '_'

/-- `\s`. -/
def reIsSpaceChar (c : Char) : Bool :=
  c = ' ' || c = '\t' || c = '\n' || c = '\r' || c = '\x0b' || c = '\x0c'

/-- `\s*`. -/
def spaces0 : RE := RE.star (RE.cls reIsSpaceChar)

/-- `\s+`. -/
def spaces1 : RE := plusRE (RE.cls reIsSpaceChar)

/-- `[^c]`. -/
def notChr (c : Char) : RE := RE.cls (fun c2 => c2 != c)

/-- Sequence of regexes. -/
def seqN (l : List RE) : RE := l.foldr RE.seq RE.eps

/-- Alternation, preferring earlier entries; the empty case never matches. -/
def altN : List RE → RE
  | [] => RE.cls (fun _ => false)
  | [r] => r
  | r :: rest => RE.alt r (altN rest)

/-- The opening and closing brace characters. -/
def obrace : Char := '\x7b'

/-- The closing brace character. -/
def cbrace : Char := '\x7d'

/-- The single-quote character. -/
def squote : Char := Char.ofNat 39

/-- `function\s+(\w+)\s*\(([^)]*)\)\s*(external|public|internal|private)?\s*(view|pure|payable)?\s*(returns\s*\(([^)]*)\))?\s*(\w+\s*)*\s*\{` -/
def function_pattern : RE := seqN [
  strRE "function", spaces1,
  RE.grp 1 (plusRE (RE.cls reIsWordChar)), spaces0,
  RE.chr '(', RE.grp 2 (RE.star (notChr ')')), RE.chr ')', spaces0,
  RE.opt (RE.grp 3 (altN [strRE "external", strRE "public", strRE "internal", strRE "private"])),
  spaces0,
  RE.opt (RE.grp 4 (altN [strRE "view", strRE "pure", strRE "payable"])), spaces0,
  RE.opt (RE.grp 5 (seqN [strRE "returns", spaces0, RE.chr '(',
    RE.grp 6 (RE.star (notChr ')')), RE.chr ')'])), spaces0,
  RE.star (RE.grp 7 (seqN [plusRE (RE.cls reIsWordChar), spaces0])), spaces0,
  RE.chr obrace ]

/-- `((?:uint|int|string|bool|bytes|address|mapping)\w*(?:\[\])*)\s+(public|private|internal)?\s*(constant|immutable)?\s*(\w+)(?:\s*=\s*([^;]+))?;` -/
def state_var_pattern : RE := seqN [
  RE.grp 1 (seqN [
    altN [strRE "uint", strRE "int", strRE "string", strRE "bool", strRE "bytes",
      strRE "address", strRE "mapping"],
    RE.star (RE.cls reIsWordChar),
    RE.star (seqN [RE.chr '[', RE.chr ']'])]),
  spaces1,
  RE.opt (RE.grp 2 (altN [strRE "public", strRE "private", strRE "internal"])), spaces0,
  RE.opt (RE.grp 3 (altN [strRE "constant", strRE "immutable"])), spaces0,
  RE.grp 4 (plusRE (RE.cls reIsWordChar)),
  RE.opt (seqN [spaces0, RE.chr '=', spaces0, RE.grp 5 (plusRE (notChr ';'))]),
  RE.chr ';' ]

/-- `modifier\s+(\w+)\s*\(([^)]*)\)\s*\{` -/
def modifier_pattern : RE := seqN [
  strRE "modifier", spaces1,
  RE.grp 1 (plusRE (RE.cls reIsWordChar)), spaces0,
  RE.chr '(', RE.grp 2 (RE.star (notChr ')')), RE.chr ')', spaces0,
  RE.chr obrace ]

/-- `event\s+(\w+)\s*\(([^)]*)\)\s*(anonymous)?;` -/
def event_pattern : RE := seqN [
  strRE "event", spaces1,
  RE.grp 1 (plusRE (RE.cls reIsWordChar)), spaces0,
  RE.chr '(', RE.grp 2 (RE.star (notChr ')')), RE.chr ')', spaces0,
  RE.opt (RE.grp 3 (strRE "anonymous")), RE.chr ';' ]

/-- `import\s+(?:"([^"]+)"|'([^']+)')` -/
def import_pattern : RE := seqN [
  strRE "import", spaces1,
  RE.alt
    (seqN [RE.chr '"', RE.grp 1 (plusRE (notChr '"')), RE.chr '"'])
    (seqN [RE.chr squote, RE.grp 2 (plusRE (notChr squote)), RE.chr squote]) ]

/-- `pragma\s+([^;]+);` -/
def pragma_pattern : RE := seqN [
  strRE "pragma", spaces1, RE.grp 1 (plusRE (notChr ';')), RE.chr ';' ]

/-- `//\s*SPDX-License-Identifier:\s*([^\r\n]+)` -/
def license_pattern : RE := seqN [
  RE.chr '/', RE.chr '/', spaces0, strRE "SPDX-License-Identifier:", spaces0,
  RE.grp 1 (plusRE (RE.cls (fun c => c != '\r' && c != '\n'))) ]

/-- `contract\s+\w+\s+is\s+([^{]+)\s*\{` -/
def inheritance_pattern : RE := seqN [
  strRE "contract", spaces1, plusRE (RE.cls reIsWordChar), spaces1,
  strRE "is", spaces1,
  RE.grp 1 (plusRE (notChr obrace)), spaces0, RE.chr obrace ]

/-! ## The structural parser (`src/core/parser.rs`) -/

/-- Split a character list on a separator character (the semantics of
`str::split(sep)` / `String.splitOn` for a one-character separator),
accumulating the current piece in reverse. -/
def splitOnCharAux (sep : Char) : List Char → List Char → List String
  | [], acc => [String.mk acc.reverse]
  | c :: rest, acc =>
    if c = sep then String.mk acc.reverse :: splitOnCharAux sep rest []
    else splitOnCharAux sep rest (c :: acc)

/-- Split a string on a separator character. -/
def splitOnChar (sep : Char) (s : String) : List String :=
  splitOnCharAux sep s.data []

/-- Rust `str::split_whitespace`: the maximal non-whitespace runs. -/
def splitWsAux : List Char → List Char → List String
  | [], acc => if acc.isEmpty then [] else [String.mk acc.reverse]
  | c :: rest, acc =>
    if c.isWhitespace then
      if acc.isEmpty then splitWsAux rest []
      else String.mk acc.reverse :: splitWsAux rest []
    else splitWsAux rest (c :: acc)

/-- Rust `str::split_whitespace` on a string. -/
def splitWs (s : String) : List String := splitWsAux s.data []

/-- Rust `str::trim`: drop leading and trailing whitespace. -/
def strTrim (s : String) : String :=
  String.mk (((s.data.dropWhile Char.isWhitespace).reverse.dropWhile
    Char.isWhitespace).reverse)

/-- One step of Rust `str::lines`: strip a single trailing `\r` (a `\r\n`
terminator). -/
def stripCr (s : String) : String :=
  match s.data.reverse with
  | '\r' :: rest => String.mk rest.reverse
  | _ => s

/-- Rust `str::lines`: split on `\n`, the final line ending being optional;
a `\r` preceding a `\n` is stripped. -/
def rustLines (s : String) : List String :=
  match (splitOnChar '\n' s).reverse with
  | [] => []
  | last :: restRev =>
    let initial := (restRev.reverse).map stripCr
    if last = "" then initial else initial ++ [last]

/-- `ContractParser::parse_parameters` (`src/core/parser.rs` lines 341-369):
split on commas; each non-empty token splits on whitespace, first part the
type and second the name; tokens with fewer than two parts are dropped;
`indexed` anywhere in the token marks the parameter indexed. -/
def parse_parameters (params_str : String) : List Parameter :=
  if strTrim params_str = "" then []
  else
    (splitOnChar ',' params_str).filterMap (fun param =>
      let param := strTrim param
      if param = "" then none
      else
        match splitWs param with
        | type_name :: name :: _ =>
          some { name := name, type_name := type_name,
                 indexed := strContainsSub param "indexed" }
        | _ => none)

/-- Count of the brace balance over one line (`{` adds one, `}` subtracts
one), as accumulated by the character loop of `extract_function_body`. -/
def braceDelta (line : String) : Int :=
  line.data.foldl (fun acc c =>
    if c = obrace then acc + 1 else if c = cbrace then acc - 1 else acc) 0

/-- Does the line contain an opening brace (this is what sets `started`)? -/
def hasOpenBrace (line : String) : Bool :=
  line.data.any (fun c => c = obrace)

/-- The line loop of `ContractParser::extract_function_body`
(`src/core/parser.rs` lines 372-399): per line update the brace count and
the `started` flag, append the line (plus `\n`) once started, and stop when
started and the count returns to zero. -/
def extract_body_loop : List String → Int → Bool → String
  | [], _, _ => ""
  | line :: rest, brace_count, started =>
    let brace_count := brace_count + braceDelta line
    let started := started || hasOpenBrace line
    let acc := if started then line ++ "\n" else ""
    if started && brace_count == 0 then acc
    else acc ++ extract_body_loop rest brace_count started

/-- `ContractParser::extract_function_body`: scan from `start_line`,
brace-counting; always returns (`Ok` on every path in the source). -/
def extract_function_body (source_code : String) (start_line : Nat) : String :=
  extract_body_loop ((rustLines source_code).drop start_line) 0 false

/-- `ContractParser::extract_modifier_body` delegates to
`extract_function_body`. -/
def extract_modifier_body (source_code : String) (start_line : Nat) : String :=
  extract_function_body source_code start_line

/-- `ContractParser::extract_functions` (`src/core/parser.rs` lines
168-203): line-by-line header match; capture 3 (visibility) defaults to
"internal", capture 4 (mutability) to `""`. -/
def extract_functions (source_code : String) : List FunctionInfo :=
  (rustLines source_code).enum.filterMap (fun p =>
    let line_num := p.1
    match reCaptures function_pattern p.2 with
    | none => none
    | some caps =>
      let name := (capsGet caps 1).getD ""
      some
        { name := name
          visibility := (capsGet caps 3).getD "internal"
          state_mutability := (capsGet caps 4).getD ""
          parameters := parse_parameters ((capsGet caps 2).getD "")
          return_parameters := parse_parameters ((capsGet caps 6).getD "")
          modifiers := []
          line_number := line_num + 1
          body := extract_function_body source_code line_num
          is_constructor := name == "constructor"
          is_fallback := name == "fallback"
          is_receive := name == "receive" })

/-- `ContractParser::extract_state_variables` (`src/core/parser.rs` lines
206-231). -/
def extract_state_variables (source_code : String) : List StateVariable :=
  (rustLines source_code).enum.filterMap (fun p =>
    match reCaptures state_var_pattern p.2 with
    | none => none
    | some caps =>
      let mutability := (capsGet caps 3).getD ""
      some
        { name := (capsGet caps 4).getD ""
          type_name := (capsGet caps 1).getD ""
          visibility := (capsGet caps 2).getD "internal"
          is_constant := mutability == "constant"
          is_immutable := mutability == "immutable"
          initial_value := capsGet caps 5
          line_number := p.1 + 1 })

/-- `ContractParser::extract_modifiers` (`src/core/parser.rs` lines
234-257). -/
def extract_modifiers (source_code : String) : List ModifierInfo :=
  (rustLines source_code).enum.filterMap (fun p =>
    match reCaptures modifier_pattern p.2 with
    | none => none
    | some caps =>
      some
        { name := (capsGet caps 1).getD ""
          parameters := parse_parameters ((capsGet caps 2).getD "")
          body := extract_modifier_body source_code p.1
          line_number := p.1 + 1 })

/-- `ContractParser::extract_events` (`src/core/parser.rs` lines 260-281). -/
def extract_events (source_code : String) : List EventInfo :=
  (rustLines source_code).enum.filterMap (fun p =>
    match reCaptures event_pattern p.2 with
    | none => none
    | some caps =>
      some
        { name := (capsGet caps 1).getD ""
          parameters := parse_parameters ((capsGet caps 2).getD "")
          anonymous := (capsGet caps 3).isSome
          line_number := p.1 + 1 })

/-- `ContractParser::extract_imports` (`src/core/parser.rs` lines 284-300):
all matches over the whole text, group 1 (double-quoted) or group 2
(single-quoted); empty paths are dropped. -/
def extract_imports (source_code : String) : List String :=
  (reFindAll import_pattern source_code).filterMap (fun caps =>
    let import_path := ((capsGet caps 1).orElse (fun _ => capsGet caps 2)).getD ""
    if import_path = "" then none else some import_path)

/-- `ContractParser::extract_pragma_directives` (`src/core/parser.rs` lines
303-312). -/
def extract_pragma_directives (source_code : String) : List String :=
  (reFindAll pragma_pattern source_code).map (fun caps => (capsGet caps 1).getD "")

/-- `ContractParser::extract_license` (`src/core/parser.rs` lines 315-321). -/
def extract_license (source_code : String) : Option String :=
  match reCaptures license_pattern source_code with
  | none => none
  | some caps => (capsGet caps 1).map (fun s => strTrim s)

/-- `ContractParser::extract_inheritance` (`src/core/parser.rs` lines
324-338): split each `is` clause on commas, trim, drop empties, flatten. -/
def extract_inheritance (source_code : String) : List String :=
  ((reFindAll inheritance_pattern source_code).map (fun caps =>
    ((splitOnChar ',' ((capsGet caps 1).getD "")).map (fun s => strTrim s)).filter
      (fun s => s != ""))).flatten

/-- `ContractParser::parse_contract` (`src/core/parser.rs` lines 138-165).
Every `extract_*` in the source returns `Result` but is `Ok` on every path
(the `?`s never fire), so the whole parse is `Ok` on every input. -/
def parse_contract (contract_info : ContractInfo) : Except String ParsedContract :=
  let source_code := contract_info.source_code
  Except.ok
    { name := contract_info.name
      source_code := source_code
      functions := extract_functions source_code
      state_variables := extract_state_variables source_code
      modifiers := extract_modifiers source_code
      events := extract_events source_code
      imports := extract_imports source_code
      inheritance := extract_inheritance source_code
      compiler_version := contract_info.compiler_version
      pragma_directives := extract_pragma_directives source_code
      license := extract_license source_code
      metadata := contract_info.metadata }

/-! ## Severity and category normalization
(`src/plugins/evm.rs`, `src/core/analyzer.rs`, `src/core/ai_assist.rs`) -/

/-- Rust `str::to_lowercase` (the inputs compared against are ASCII, where
Unicode and ASCII lowercasing agree). -/
def strToLower (s : String) : String := String.mk (s.data.map Char.toLower)

/-- `map_slither_severity` (identical bodies in `src/plugins/evm.rs` lines
192-200 and `src/core/analyzer.rs` lines 507-515): lower-case the native
impact, map the four known values, default to `Medium`. -/
def map_slither_severity (impact : String) : String :=
  if strToLower impact = "high" then "High"
  else if strToLower impact = "medium" then "Medium"
  else if strToLower impact = "low" then "Low"
  else if strToLower impact = "informational" then "Info"
  else "Medium"

/-- `map_mythril_severity` (`src/core/analyzer.rs` lines 518-525). -/
def map_mythril_severity (severity : String) : String :=
  if strToLower severity = "high" then "High"
  else if strToLower severity = "medium" then "Medium"
  else if strToLower severity = "low" then "Low"
  else "Medium"

/-- `AIVulnerability` from `src/core/ai_assist.rs`. -/
structure AIVulnerability where
  title : String
  description : String
  severity : String
  category : String
  line_number : Option Nat
  code_snippet : Option String
  exploit_scenario : Option String
  proof_of_concept : Option String
  fix_suggestion : Option String
  confidence : ℚ
deriving DecidableEq, Repr, Inhabited

/-- `map_ai_category` (`src/core/ai_assist.rs` lines 508-518). -/
def map_ai_category (category : String) : VulnerabilityCategory :=
  if strToLower category = "reentrancy" then VulnerabilityCategory.Reentrancy
  else if strToLower category = "access control" then VulnerabilityCategory.AccessControl
  else if strToLower category = "integer overflow" then VulnerabilityCategory.IntegerOverflow
  else if strToLower category = "unchecked calls" then VulnerabilityCategory.UnhandledExceptions
  else if strToLower category = "timestamp" then VulnerabilityCategory.TimestampDependence
  else if strToLower category = "dos" then VulnerabilityCategory.DenialOfService
  else VulnerabilityCategory.Other

/-- The normalization loop of `parse_ai_analysis_response`
(`src/core/ai_assist.rs` lines 435-451), applied once the surrounding JSON
has been decoded (the JSON transport is an external boundary): note the
native `severity` string is copied into the Finding verbatim. -/
def ai_vulnerability_to_vulnerability (contract : ParsedContract)
    (ai_vuln : AIVulnerability) : Vulnerability :=
  { id := ""
    title := "AI: " ++ ai_vuln.title
    description := ai_vuln.description
    severity := ai_vuln.severity
    category := map_ai_category ai_vuln.category
    file_path := contract.name
    line_number := ai_vuln.line_number
    code_snippet := ai_vuln.code_snippet
    recommendation := ai_vuln.fix_suggestion
    references := ["AI Analysis"]
    cwe_id := none
    tool := "AI Assistant"
    confidence := ai_vuln.confidence }

/-- The Finding list produced by `parse_ai_analysis_response` from a decoded
`AIAnalysisResponse.vulnerabilities`. -/
def parse_ai_vulnerabilities (contract : ParsedContract)
    (ai_vulns : List AIVulnerability) : List Vulnerability :=
  ai_vulns.map (ai_vulnerability_to_vulnerability contract)

/-- The five canonical severities of the Finding model. -/
def canonical_severities : List String := ["Critical", "High", "Medium", "Low", "Info"]

/-! ## Plugin manager (`src/plugins/mod.rs`) -/

/-- The platform identifiers registered by `PluginManager::new`
(`src/plugins/mod.rs` lines 44-54). -/
def plugin_registry : List String := ["evm", "move", "cairo", "ink"]

/-- `PluginManager::analyze_contract` (`src/plugins/mod.rs` lines 77-83):
resolve the platform identifier; unregistered identifiers yield the
"Plugin not found" error without running any plugin. The per-plugin
`analyze_contract` implementations are supplied as an input `impls`. -/
def plugin_manager_analyze
    (impls : String → ParsedContract → Except String (List Vulnerability))
    (contract : ParsedContract) (target_platform : String) :
    Except String (List Vulnerability) :=
  if target_platform ∈ plugin_registry then impls target_platform contract
  else Except.error ("Plugin not found for platform: " ++ target_platform)

/-! ## Analysis orchestrator (`src/core/analyzer.rs`) -/

/-- `AnalysisSummary` from `src/core/analyzer.rs`. -/
structure AnalysisSummary where
  total_vulnerabilities : Nat
  critical_count : Nat
  high_count : Nat
  medium_count : Nat
  low_count : Nat
  info_count : Nat
  analysis_duration : ℚ
  tools_used : List String
  coverage_percentage : ℚ
deriving DecidableEq, Repr, Inhabited

/-- `AnalysisMetrics` from `src/core/analyzer.rs`. -/
structure AnalysisMetrics where
  lines_of_code : Nat
  functions_analyzed : Nat
  complexity_score : ℚ
  security_score : ℚ
  gas_optimization_score : ℚ
deriving DecidableEq, Repr, Inhabited

/-- `AnalysisResults` from `src/core/analyzer.rs` (the `chrono` timestamp,
an external clock reading, is omitted). -/
structure AnalysisResults where
  contract_name : String
  vulnerabilities : List Vulnerability
  analysis_summary : AnalysisSummary
  recommendations : List String
  metrics : AnalysisMetrics
deriving DecidableEq, Repr, Inhabited

/-- `calculate_complexity_score` (`src/core/analyzer.rs` lines 572-578). -/
def calculate_complexity_score (functions lines : Nat) : ℚ :=
  min ((functions : ℚ) * (1/10) + (lines : ℚ) * (1/100)) 100

/-- `generate_analysis_summary` (`src/core/analyzer.rs` lines 581-614):
count per severity (everything outside the four named severities counts as
Info), carry the duration and tool list through, fixed coverage of 85.0. -/
def generate_analysis_summary (vulnerabilities : List Vulnerability)
    (duration : ℚ) (tools_used : List String) : AnalysisSummary :=
  { total_vulnerabilities := vulnerabilities.length
    critical_count := (vulnerabilities.filter (fun v => v.severity == "Critical")).length
    high_count := (vulnerabilities.filter (fun v => v.severity == "High")).length
    medium_count := (vulnerabilities.filter (fun v => v.severity == "Medium")).length
    low_count := (vulnerabilities.filter (fun v => v.severity == "Low")).length
    info_count := (vulnerabilities.filter (fun v =>
      v.severity != "Critical" && v.severity != "High" && v.severity != "Medium"
        && v.severity != "Low")).length
    analysis_duration := duration
    tools_used := tools_used
    coverage_percentage := 85 }

/-- `generate_recommendations` (`src/core/analyzer.rs` lines 617-634). -/
def generate_recommendations (vulnerabilities : List Vulnerability) : List String :=
  (if vulnerabilities.isEmpty then
    ["Great job! No vulnerabilities were found in the initial analysis.",
     "Consider running a deeper analysis with fuzzing and formal verification."]
  else
    ["Address high and critical severity vulnerabilities immediately.",
     "Implement comprehensive unit tests for all smart contract functions.",
     "Consider getting a professional security audit before deployment.",
     "Set up continuous security monitoring for your smart contracts."])
  ++ ["Follow secure coding practices and use established security patterns.",
      "Keep your dependencies up to date and monitor for new vulnerabilities."]

/-- The external backends the orchestrator consults; each is a function of
the parsed contract returning either raw findings or a failure, exactly the
collaborator contract of the spec (§6). `run_slither`/`run_mythril`/
`run_echidna` in the source return `Ok(vec![])` themselves when the process
exits unsuccessfully, and `Err` when it cannot be spawned; both outcomes are
folded into the `Except` result here. -/
structure BackendEnv where
  slither : ParsedContract → Except String (List Vulnerability)
  mythril : ParsedContract → Except String (List Vulnerability)
  echidna : ParsedContract → Except String (List Vulnerability)
  ai_analyze : ParsedContract → Except String (List Vulnerability)

/-- `run_static_analysis` (`src/core/analyzer.rs` lines 201-241): per
target platform. For `evm`, a Slither failure is swallowed (`if let Ok`);
Mythril runs only at depth `deep`, failures likewise swallowed. `move` and
`cairo` run stubs that return no findings. Any other platform identifier is
the fatal "Unsupported target platform" error — note no backend in the
environment is consulted in that branch. -/
def run_static_analysis (env : BackendEnv) (contract : ParsedContract)
    (target depth : String) : Except String (List Vulnerability) :=
  if target = "evm" then
    let slither_vulns := match env.slither contract with
      | Except.ok r => r
      | Except.error _ => []
    let mythril_vulns :=
      if depth = "deep" then
        match env.mythril contract with
        | Except.ok r => r
        | Except.error _ => []
      else []
    Except.ok (slither_vulns ++ mythril_vulns)
  else if target = "move" then Except.ok []
  else if target = "cairo" then Except.ok []
  else Except.error ("Unsupported target platform: " ++ target)

/-- `run_dynamic_analysis` (`src/core/analyzer.rs` lines 244-264): Echidna
for `evm` (failure swallowed), nothing for other platforms. -/
def run_dynamic_analysis (env : BackendEnv) (contract : ParsedContract)
    (target : String) : Except String (List Vulnerability) :=
  if target = "evm" then
    Except.ok (match env.echidna contract with
      | Except.ok r => r
      | Except.error _ => [])
  else Except.ok []

/-- Accumulator of the per-contract loop in `analyze_contracts`:
vulnerabilities, tools_used, total functions, total lines. -/
structure LoopState where
  vulns : List Vulnerability
  tools : List String
  total_functions : Nat
  total_lines : Nat
deriving DecidableEq, Repr, Inhabited

/-- One iteration of the contract loop in `analyze_contracts`
(`src/core/analyzer.rs` lines 110-135): parse, accumulate counts, static
phase (fatal on unsupported platform), dynamic phase at depth `deep`, AI
phase when requested — an AI failure propagates (`?`), and only the AI
phase ever pushes onto `tools_used`. -/
def analyze_one (env : BackendEnv) (target depth : String) (use_ai : Bool)
    (st : LoopState) (contract : ContractInfo) : Except String LoopState := do
  let parsed ← parse_contract contract
  let total_functions := st.total_functions + parsed.functions.length
  let total_lines := st.total_lines + (rustLines parsed.source_code).length
  let static_vulns ← run_static_analysis env parsed target depth
  let vulns := st.vulns ++ static_vulns
  let vulns ←
    if depth = "deep" then do
      let dynamic_vulns ← run_dynamic_analysis env parsed target
      pure (vulns ++ dynamic_vulns)
    else pure vulns
  if use_ai then do
    let ai_vulns ← env.ai_analyze parsed
    pure { vulns := vulns ++ ai_vulns, tools := st.tools ++ ["AI Assistant"],
           total_functions := total_functions, total_lines := total_lines }
  else
    pure { vulns := vulns, tools := st.tools,
           total_functions := total_functions, total_lines := total_lines }

/-- `analyze_contracts` (`src/core/analyzer.rs` lines 85-162). The fetched
contract list and the elapsed wall time are inputs (fetching and the clock
are external). -/
def analyze_contracts (env : BackendEnv) (contracts : List ContractInfo)
    (target depth : String) (use_ai : Bool) (duration : ℚ) :
    Except String AnalysisResults := do
  if contracts.isEmpty then
    Except.error "No contracts found in the specified path"
  else do
    let st ← contracts.foldlM (analyze_one env target depth use_ai)
      { vulns := [], tools := [], total_functions := 0, total_lines := 0 }
    let security_score := calculate_security_score st.vulns
    let complexity_score := calculate_complexity_score st.total_functions st.total_lines
    Except.ok
      { contract_name := ((contracts.head?).map (fun c => c.name)).getD ""
        vulnerabilities := st.vulns
        analysis_summary := generate_analysis_summary st.vulns duration st.tools
        recommendations := generate_recommendations st.vulns
        metrics :=
          { lines_of_code := st.total_lines
            functions_analyzed := st.total_functions
            complexity_score := complexity_score
            security_score := security_score
            gas_optimization_score := 0 } }

/-! ## Claims C3 and C5 -/

/-- An AI-reported vulnerability carrying a severity outside the canonical
five-value set. -/
def c3_ai_vuln : AIVulnerability :=
  { title := "Logic flaw"
    description := "described"
    severity := "Catastrophic"
    category := "logic"
    line_number := none
    code_snippet := none
    exploit_scenario := none
    proof_of_concept := none
    fix_suggestion := none
    confidence := 1/2 }

/-- C3 counterexample: the AI backend's normalization copies the native
severity string into the Finding verbatim (`severity: ai_vuln.severity` in
`parse_ai_analysis_response`), so a native value "Catastrophic" that is
unknown to any mapping lands in the Finding untouched — neither inside the
five canonical values nor defaulted to Medium. -/
theorem ai_severity_passthrough_counterexample :
    ((parse_ai_vulnerabilities default [c3_ai_vuln]).map (fun v => v.severity))
        = ["Catastrophic"]
      ∧ "Catastrophic" ∉ canonical_severities
      ∧ "Catastrophic" ≠ "Medium" :=
  ⟨rfl, by decide, by decide⟩

/-- C3 (amended): the Slither and Mythril adapters map severities through
explicit tables into the canonical five-value set with unknown native
values defaulting to Medium, but the AI backend copies the native severity
string through unmapped. -/
theorem severity_mapping_amended :
    (∀ s, map_slither_severity s ∈ canonical_severities)
    ∧ (∀ s, strToLower s ∉ ["high", "medium", "low", "informational"] →
        map_slither_severity s = "Medium")
    ∧ (∀ s, map_mythril_severity s ∈ canonical_severities)
    ∧ (∀ s, strToLower s ∉ ["high", "medium", "low"] → map_mythril_severity s = "Medium")
    ∧ (∀ contract ai_vuln,
        (ai_vulnerability_to_vulnerability contract ai_vuln).severity = ai_vuln.severity) := by
  refine ⟨?_, ?_, ?_, ?_, fun _ _ => rfl⟩
  · intro s
    unfold map_slither_severity
    split
    · decide
    split
    · decide
    split
    · decide
    split
    · decide
    · decide
  · intro s hs
    simp only [List.mem_cons, List.mem_singleton, not_or] at hs
    unfold map_slither_severity
    rw [if_neg hs.1, if_neg hs.2.1, if_neg hs.2.2.1, if_neg hs.2.2.2.1]
  · intro s
    unfold map_mythril_severity
    split
    · decide
    split
    · decide
    split
    · decide
    · decide
  · intro s hs
    simp only [List.mem_cons, List.mem_singleton, not_or] at hs
    unfold map_mythril_severity
    rw [if_neg hs.1, if_neg hs.2.1, if_neg hs.2.2.1]

/-- Witness for the amended C3 statement at concrete inputs. -/
theorem severity_mapping_amended_witness :
    map_slither_severity "wild" = "Medium"
    ∧ map_slither_severity "HIGH" ∈ canonical_severities
    ∧ map_mythril_severity "???" = "Medium"
    ∧ (ai_vulnerability_to_vulnerability default c3_ai_vuln).severity = "Catastrophic" :=
  ⟨severity_mapping_amended.2.1 "wild" (by decide),
   severity_mapping_amended.1 "HIGH",
   severity_mapping_amended.2.2.2.1 "???" (by decide),
   severity_mapping_amended.2.2.2.2 default c3_ai_vuln⟩

/-- C5: a platform identifier outside the supported set makes the whole run
fail with the "Unsupported target platform" error — uniformly in the
backend environment `env`, i.e. without consulting any external backend —
and the plugin manager likewise answers any unregistered identifier with
its "Plugin not found" error without running a plugin (uniformly in the
plugin implementations). The orchestrator itself never calls the plugin
manager at all. -/
theorem platform_not_supported_no_backend (target : String)
    (htarget : target ≠ "evm" ∧ target ≠ "move" ∧ target ≠ "cairo")
    (env : BackendEnv) (contracts : List ContractInfo) (depth : String)
    (use_ai : Bool) (duration : ℚ) (hne : contracts ≠ []) :
    analyze_contracts env contracts target depth use_ai duration
        = Except.error ("Unsupported target platform: " ++ target)
    ∧ (target ∉ plugin_registry →
        ∀ impls contract, plugin_manager_analyze impls contract target
          = Except.error ("Plugin not found for platform: " ++ target)) := by
  constructor
  · obtain ⟨c, rest, rfl⟩ := List.exists_cons_of_ne_nil hne
    have hstatic : ∀ parsed, run_static_analysis env parsed target depth
        = Except.error ("Unsupported target platform: " ++ target) := by
      intro parsed
      unfold run_static_analysis
      rw [if_neg htarget.1, if_neg htarget.2.1, if_neg htarget.2.2]
    have hone : ∀ st, analyze_one env target depth use_ai st c
        = Except.error ("Unsupported target platform: " ++ target) := by
      intro st
      unfold analyze_one
      simp only [parse_contract, hstatic, bind, Except.bind]
    simp only [analyze_contracts, List.isEmpty_cons, Bool.false_eq_true, if_false,
      List.foldlM, bind, Except.bind, hone]
  · intro hreg impls contract
    unfold plugin_manager_analyze
    rw [if_neg hreg]

/-- A backend environment whose backends all succeed with no findings. -/
def trivial_backend_env : BackendEnv :=
  { slither := fun _ => Except.ok []
    mythril := fun _ => Except.ok []
    echidna := fun _ => Except.ok []
    ai_analyze := fun _ => Except.ok [] }

/-- Witness for C5 at the concrete identifier "unknown-chain". -/
theorem platform_not_supported_no_backend_witness :
    analyze_contracts trivial_backend_env [default] "unknown-chain" "standard" false 0
        = Except.error ("Unsupported target platform: " ++ "unknown-chain")
    ∧ plugin_manager_analyze (fun _ _ => Except.ok []) default "unknown-chain"
        = Except.error ("Plugin not found for platform: " ++ "unknown-chain") := by
  have h := platform_not_supported_no_backend "unknown-chain" (by decide)
    trivial_backend_env [default] "standard" false 0 (by simp)
  exact ⟨h.1, h.2 (by decide) _ _⟩

/-! ## Claim C6: the `tools_used` list -/

lemma analyze_one_ok_tools (env : BackendEnv) (target depth : String) (use_ai : Bool)
    (st : LoopState) (c : ContractInfo) (st1 : LoopState)
    (h : analyze_one env target depth use_ai st c = Except.ok st1) :
    st1.tools = st.tools ++ (if use_ai then ["AI Assistant"] else []) := by
  unfold analyze_one at h
  simp only [parse_contract, bind, Except.bind, pure, Except.pure] at h
  repeat' split at h
  all_goals
    first
      | exact Except.noConfusion h
      | (injection h with h
         subst h
         simp_all)

lemma analyze_loop_tools (env : BackendEnv) (target depth : String) (use_ai : Bool) :
    ∀ (cs : List ContractInfo) (st st1 : LoopState),
      cs.foldlM (analyze_one env target depth use_ai) st = Except.ok st1 →
      st1.tools = st.tools
        ++ (if use_ai then List.replicate cs.length "AI Assistant" else []) := by
  intro cs
  induction cs with
  | nil =>
    intro st st1 h
    simp only [List.foldlM, pure, Except.pure, Except.ok.injEq] at h
    subst h
    simp
  | cons c cs ih =>
    intro st st1 h
    simp only [List.foldlM, bind, Except.bind] at h
    cases ha : analyze_one env target depth use_ai st c with
    | error e => rw [ha] at h; exact absurd h (by simp)
    | ok stm =>
      rw [ha] at h
      have h1 := analyze_one_ok_tools env target depth use_ai st c stm ha
      have h2 := ih stm st1 h
      rw [h2, h1]
      by_cases hai : use_ai
      · simp [hai, List.replicate_succ, List.append_assoc]
      · simp [hai]

lemma analyze_one_evm_no_ai_ok (env : BackendEnv) (depth : String)
    (st : LoopState) (c : ContractInfo) :
    ∃ st1, analyze_one env "evm" depth false st c = Except.ok st1 := by
  by_cases hd : depth = "deep" <;>
    simp [analyze_one, parse_contract, run_static_analysis, run_dynamic_analysis,
      bind, Except.bind, pure, Except.pure, hd]

lemma analyze_loop_evm_no_ai_ok (env : BackendEnv) (depth : String) :
    ∀ (cs : List ContractInfo) (st : LoopState),
      ∃ st1, cs.foldlM (analyze_one env "evm" depth false) st = Except.ok st1 := by
  intro cs
  induction cs with
  | nil =>
    intro st
    exact ⟨st, rfl⟩
  | cons c cs ih =>
    intro st
    obtain ⟨stm, hm⟩ := analyze_one_evm_no_ai_ok env depth st c
    obtain ⟨st1, h1⟩ := ih stm
    refine ⟨st1, ?_⟩
    simp only [List.foldlM, bind, Except.bind, hm, h1]

/-- C6 (amended): on every successful run, `tools_used` consists of one
"AI Assistant" entry per contract when AI analysis was requested and is
empty otherwise — the names of external static/dynamic backends never
appear, even when they ran and produced findings — and a run whose static
backend is unavailable still completes successfully with an empty
`tools_used`. -/
theorem tools_used_amended :
    (∀ (env : BackendEnv) (contracts : List ContractInfo) (target depth : String)
      (use_ai : Bool) (duration : ℚ) (results : AnalysisResults),
      analyze_contracts env contracts target depth use_ai duration = Except.ok results →
      results.analysis_summary.tools_used
        = (if use_ai then List.replicate contracts.length "AI Assistant" else []))
    ∧ (∀ (env : BackendEnv) (contracts : List ContractInfo) (depth : String)
        (duration : ℚ), contracts ≠ ([] : List ContractInfo) →
        ∃ results,
          analyze_contracts
            { env with slither := fun _ => Except.error "Slither unavailable" }
            contracts "evm" depth false duration = Except.ok results
          ∧ results.analysis_summary.tools_used = []) := by
  constructor
  · intro env contracts target depth use_ai duration results h
    unfold analyze_contracts at h
    split at h
    · exact absurd h (by simp)
    · simp only [bind, Except.bind] at h
      cases hf : contracts.foldlM (analyze_one env target depth use_ai)
          { vulns := [], tools := [], total_functions := 0, total_lines := 0 } with
      | error e => rw [hf] at h; exact absurd h (by simp)
      | ok st =>
        rw [hf] at h
        simp only [Except.ok.injEq] at h
        subst h
        have := analyze_loop_tools env target depth use_ai contracts _ st hf
        simpa [generate_analysis_summary] using this
  · intro env contracts depth duration hne
    obtain ⟨st, hst⟩ := analyze_loop_evm_no_ai_ok
      { env with slither := fun _ => Except.error "Slither unavailable" } depth contracts
      { vulns := [], tools := [], total_functions := 0, total_lines := 0 }
    have htools := analyze_loop_tools _ "evm" depth false contracts _ st hst
    refine ⟨{ contract_name := ((contracts.head?).map (fun c => c.name)).getD ""
              vulnerabilities := st.vulns
              analysis_summary := generate_analysis_summary st.vulns duration st.tools
              recommendations := generate_recommendations st.vulns
              metrics :=
                { lines_of_code := st.total_lines
                  functions_analyzed := st.total_functions
                  complexity_score := calculate_complexity_score st.total_functions st.total_lines
                  security_score := calculate_security_score st.vulns
                  gas_optimization_score := 0 } }, ?_, ?_⟩
    · unfold analyze_contracts
      rw [if_neg (by simpa [List.isEmpty_iff] using hne)]
      simp only [bind, Except.bind, hst]
    · simpa [generate_analysis_summary] using htools

/-- A finding as produced by the Slither adapter. -/
def c6_slither_finding : Vulnerability :=
  { id := ""
    title := "Slither: Reentrancy Eth"
    description := "reentrancy found"
    severity := "High"
    category := VulnerabilityCategory.Reentrancy
    file_path := "C"
    line_number := none
    code_snippet := none
    recommendation := none
    references := []
    cwe_id := none
    tool := "Slither"
    confidence := 9/10 }

/-- An environment where the Slither backend runs and produces a finding. -/
def c6_env : BackendEnv :=
  { slither := fun _ => Except.ok [c6_slither_finding]
    mythril := fun _ => Except.ok []
    echidna := fun _ => Except.ok []
    ai_analyze := fun _ => Except.ok [] }

/-- C6 counterexample: on a run where the Slither backend ran and
contributed a finding to the merged list (its `tool` field is visible
there), `tools_used` is nonetheless empty — the claim's "exactly those
backends that actually ran" fails, since only the AI phase ever pushes a
tool name. -/
theorem tools_used_counterexample :
    (analyze_contracts c6_env [default] "evm" "standard" false 0).toOption.map
        (fun r => (r.vulnerabilities.map (fun v => v.tool), r.analysis_summary.tools_used))
      = some (["Slither"], []) := by
  decide

/-- The run of the amended-C6 witness. -/
def c6_trivial_run : AnalysisResults :=
  (analyze_contracts trivial_backend_env [default] "evm" "standard" false 0).toOption.getD default

/-- Witness for the amended C6 statement at concrete inputs. -/
theorem tools_used_amended_witness :
    c6_trivial_run.analysis_summary.tools_used = []
    ∧ ∃ results,
        analyze_contracts
          { trivial_backend_env with slither := fun _ => Except.error "Slither unavailable" }
          [default] "evm" "standard" false 0 = Except.ok results
        ∧ results.analysis_summary.tools_used = [] := by
  constructor
  · have h := tools_used_amended.1 trivial_backend_env [default] "evm" "standard" false 0
      c6_trivial_run rfl
    simpa using h
  · exact tools_used_amended.2 trivial_backend_env [default] "standard" 0 (by simp)

/-! ## Claims C9 and C4: the parser -/

lemma snd_mem_of_mem_enum {α : Type} {l : List α} {p : Nat × α}
    (hp : p ∈ l.enum) : p.2 ∈ l := by
  obtain ⟨i, a⟩ := p
  have h := List.mk_mem_enum_iff_getElem?.mp hp
  obtain ⟨hlt, rfl⟩ := List.getElem?_eq_some_iff.mp h
  exact List.getElem_mem hlt

/-- C9: a line that matches the function-header pattern but carries no
visibility keyword (capture group 3 absent) yields a Function record whose
visibility is "internal" (`captures.get(3)...unwrap_or("internal")`). -/
theorem function_visibility_defaults_internal
    (source_code : String) (line_num : Nat) (line : String) (caps : Caps)
    (hline : (rustLines source_code)[line_num]? = some line)
    (hcaps : reCaptures function_pattern line = some caps)
    (hvis : capsGet caps 3 = none) :
    ∃ f ∈ extract_functions source_code,
      f.line_number = line_num + 1 ∧ f.visibility = "internal" := by
  have hmem : (line_num, line) ∈ (rustLines source_code).enum :=
    List.mk_mem_enum_iff_getElem?.mpr hline
  refine ⟨{ name := (capsGet caps 1).getD ""
            visibility := (capsGet caps 3).getD "internal"
            state_mutability := (capsGet caps 4).getD ""
            parameters := parse_parameters ((capsGet caps 2).getD "")
            return_parameters := parse_parameters ((capsGet caps 6).getD "")
            modifiers := []
            line_number := line_num + 1
            body := extract_function_body source_code line_num
            is_constructor := (capsGet caps 1).getD "" == "constructor"
            is_fallback := (capsGet caps 1).getD "" == "fallback"
            is_receive := (capsGet caps 1).getD "" == "receive" }, ?_, rfl, ?_⟩
  · unfold extract_functions
    exact List.mem_filterMap.mpr ⟨(line_num, line), hmem, by simp only [hcaps]⟩
  · simp only [hvis, Option.getD_none]

/-- C4: parsing never fails — every input string yields `Ok` with a
Contract Model — and when a given entity pattern matches nowhere the
corresponding entity list of the model is empty (`license` is `None`). -/
theorem parse_contract_total_and_degrading (info : ContractInfo) :
    ∃ m, parse_contract info = Except.ok m
      ∧ m.name = info.name ∧ m.source_code = info.source_code
      ∧ ((∀ line ∈ rustLines info.source_code,
            reCaptures function_pattern line = none) → m.functions = [])
      ∧ ((∀ line ∈ rustLines info.source_code,
            reCaptures state_var_pattern line = none) → m.state_variables = [])
      ∧ ((∀ line ∈ rustLines info.source_code,
            reCaptures modifier_pattern line = none) → m.modifiers = [])
      ∧ ((∀ line ∈ rustLines info.source_code,
            reCaptures event_pattern line = none) → m.events = [])
      ∧ (reFindAll import_pattern info.source_code = [] → m.imports = [])
      ∧ (reFindAll pragma_pattern info.source_code = [] → m.pragma_directives = [])
      ∧ (reCaptures license_pattern info.source_code = none → m.license = none)
      ∧ (reFindAll inheritance_pattern info.source_code = [] → m.inheritance = []) := by
  refine ⟨_, rfl, rfl, rfl, ?_, ?_, ?_, ?_, ?_, ?_, ?_, ?_⟩
  · intro hnone
    simp only [extract_functions, List.filterMap_eq_nil_iff]
    intro p hp
    simp only [hnone p.2 (snd_mem_of_mem_enum hp)]
  · intro hnone
    simp only [extract_state_variables, List.filterMap_eq_nil_iff]
    intro p hp
    simp only [hnone p.2 (snd_mem_of_mem_enum hp)]
  · intro hnone
    simp only [extract_modifiers, List.filterMap_eq_nil_iff]
    intro p hp
    simp only [hnone p.2 (snd_mem_of_mem_enum hp)]
  · intro hnone
    simp only [extract_events, List.filterMap_eq_nil_iff]
    intro p hp
    simp only [hnone p.2 (snd_mem_of_mem_enum hp)]
  · intro hnone
    simp [extract_imports, hnone]
  · intro hnone
    simp [extract_pragma_directives, hnone]
  · intro hnone
    simp [extract_license, hnone]
  · intro hnone
    simp [extract_inheritance, hnone]

/-- Input for the C4 witness: text in which no entity pattern matches. -/
def c4_info : ContractInfo :=
  { name := "NotAContract"
    address := ""
    source_code := "hello world\nthis is not a contract"
    compiler_version := ""
    optimization := false
    network := ""
    verified := false
    metadata := [] }

/-- Witness for C4 at a concrete non-contract input. -/
theorem parse_contract_total_witness :
    ∃ m, parse_contract c4_info = Except.ok m
      ∧ m.functions = [] ∧ m.state_variables = [] ∧ m.modifiers = []
      ∧ m.events = [] ∧ m.imports = [] ∧ m.pragma_directives = []
      ∧ m.license = none ∧ m.inheritance = [] := by
  obtain ⟨m, hok, _, _, hf, hs, hmod, he, him, hp, hl, hinh⟩ :=
    parse_contract_total_and_degrading c4_info
  exact ⟨m, hok, hf (by decide), hs (by decide), hmod (by decide), he (by decide),
    him (by decide), hp (by decide), hl (by decide), hinh (by decide)⟩

/-- Input for the C9 witness: a function header with no visibility keyword. -/
def c9_source : String := "function foo() \x7b\x7d"

/-- Witness for C9 at a concrete header line. -/
theorem function_visibility_default_witness :
    ∃ f ∈ extract_functions c9_source,
      f.line_number = 0 + 1 ∧ f.visibility = "internal" :=
  function_visibility_defaults_internal c9_source 0 "function foo() \x7b\x7d"
    [(1, "foo"), (2, "")] (by decide) (by decide) (by decide)

/-! ## Claim C2: counterexample input -/

/-- A contract with the classic reentrancy shape: an external
value-transfer call (`msg.sender.call{value: bal}("")`) followed by a
decrement of the `balances` state variable. -/
def c2_source : String :=
  "contract Vault \x7b\n    mapping(address => uint) balances;\n    function withdraw() public \x7b\n        uint bal = balances[msg.sender];\n        (bool sent, ) = msg.sender.call\x7bvalue: bal\x7d(\"\");\n        balances[msg.sender] -= bal;\n    \x7d\n\x7d\n"

/-- The fetched form of the reentrancy-shaped contract. -/
def c2_info : ContractInfo :=
  { name := "Vault"
    address := ""
    source_code := c2_source
    compiler_version := "0.8.0"
    optimization := false
    network := ""
    verified := false
    metadata := [] }

/-- Its Contract Model, as the structural parser produces it. -/
def c2_model : ParsedContract :=
  (parse_contract c2_info).toOption.getD default

/-- C2 counterexample: the reentrancy-shaped contract above — its source
contains the value-transfer call followed by the balance decrement, and its
model contains the parsed `withdraw` function — yields, through the EVM
plugin's `analyze_contract` (with the external Slither backend unavailable,
so that exactly the built-in heuristic battery runs), a finding list with
no finding of category `Reentrancy`. -/
theorem evm_reentrancy_counterexample :
    strContainsSub c2_model.source_code ".call" = true
    ∧ strContainsSub c2_model.source_code "balances[msg.sender] -= bal" = true
    ∧ (c2_model.functions.map (fun f => f.name)) = ["withdraw"]
    ∧ evm_analyze_contract false (Except.ok ()) (Except.ok []) c2_model
        = Except.ok (run_basic_checks c2_model)
    ∧ (run_basic_checks c2_model).all
        (fun v => !(v.category == VulnerabilityCategory.Reentrancy)) = true := by
  refine ⟨by decide, by decide, by decide, rfl, by decide⟩

/-! ## Claim C8: declarative characterization of body extraction

`extract_body_loop` is a total structural recursion — body extraction
terminates and returns on every input (the source's `Result` is `Ok` on
every path). The definitions below give its declarative specification in
terms of prefix sums: the loop stops at the least line index at which an
opening brace has been seen and the accumulated brace depth has returned
to zero, and consumes every line to end-of-file when no such index exists
(unterminated braces). -/

/-- Accumulated brace depth after processing lines `0..j` (inclusive). -/
def depthAt (ls : List String) (j : Nat) : Int :=
  ((ls.take (j+1)).map braceDelta).sum

/-- Has an opening brace been seen in lines `0..j` (inclusive)? -/
def startedAt (ls : List String) (j : Nat) : Bool :=
  (ls.take (j+1)).any hasOpenBrace

/-- The least index at which the scan stops: an opening brace has been seen
and the outstanding depth is zero. -/
def stop_index (ls : List String) : Option Nat :=
  (List.range ls.length).find? (fun j => startedAt ls j && depthAt ls j == 0)

/-- Index of the first line containing an opening brace (length if none). -/
def firstOpenIdx (ls : List String) : Nat := ls.findIdx hasOpenBrace

/-- Concatenate lines, appending a newline to each. -/
def joinLinesNl (ls : List String) : String :=
  ls.foldr (fun l acc => l ++ "\n" ++ acc) ""

/-- The declarative body: the lines from the first opening brace up to the
stop index (to end-of-file when the braces never re-balance), each with a
newline appended. -/
def declarative_body (ls : List String) : String :=
  joinLinesNl ((match stop_index ls with
    | some j => ls.take (j+1)
    | none => ls).drop (firstOpenIdx ls))

lemma string_append_empty (s : String) : s ++ "" = s := by
  cases s with
  | mk data => show String.mk (data ++ []) = String.mk data; rw [List.append_nil]

lemma string_empty_append (s : String) : "" ++ s = s := by
  cases s with
  | mk data => show String.mk ([] ++ data) = String.mk data; rw [List.nil_append]

lemma find?_range_min (n : Nat) :
    ∀ (p : Nat → Bool) (j : Nat), (List.range n).find? p = some j →
      p j = true ∧ ∀ i < j, p i = false := by
  induction n with
  | zero =>
    intro p j h
    simp [List.range_zero] at h
  | succ n ih =>
    intro p j h
    rw [List.range_succ_eq_map] at h
    simp only [List.find?_cons] at h
    by_cases hp0 : p 0 = true
    · simp only [hp0, Option.some.injEq] at h
      subst h
      exact ⟨hp0, fun i hi => absurd hi (Nat.not_lt_zero i)⟩
    · have hp0f : p 0 = false := Bool.eq_false_iff.mpr hp0
      simp only [hp0f] at h
      rw [List.find?_map] at h
      obtain ⟨j0, hj0, hj⟩ := Option.map_eq_some'.mp h
      subst hj
      obtain ⟨hpj, hall⟩ := ih (p ∘ Nat.succ) j0 hj0
      refine ⟨hpj, ?_⟩
      intro i hi
      cases i with
      | zero => exact hp0f
      | succ i2 => exact hall i2 (Nat.lt_of_succ_lt_succ hi)


lemma startedAt_cons_zero (l : String) (rest : List String) :
    startedAt (l :: rest) 0 = hasOpenBrace l := by
  simp [startedAt]

lemma startedAt_cons_succ (l : String) (rest : List String) (j : Nat) :
    startedAt (l :: rest) (j+1) = (hasOpenBrace l || startedAt rest j) := by
  simp [startedAt]

lemma depthAt_cons_zero (l : String) (rest : List String) :
    depthAt (l :: rest) 0 = braceDelta l := by
  simp [depthAt]

lemma depthAt_cons_succ (l : String) (rest : List String) (j : Nat) :
    depthAt (l :: rest) (j+1) = braceDelta l + depthAt rest j := by
  simp [depthAt]

lemma firstOpenIdx_cons_zero (l : String) (rest : List String)
    (hol : hasOpenBrace l = true) : firstOpenIdx (l :: rest) = 0 := by
  simp [firstOpenIdx, List.findIdx_cons, hol]

lemma firstOpenIdx_cons_succ (l : String) (rest : List String)
    (hol : hasOpenBrace l = false) :
    firstOpenIdx (l :: rest) = firstOpenIdx rest + 1 := by
  simp [firstOpenIdx, List.findIdx_cons, hol]

lemma drop_idx_zero (st : Bool) (l : String) (rest : List String)
    (hb : (st || hasOpenBrace l) = true) :
    (if st then 0 else firstOpenIdx (l :: rest)) = 0 := by
  cases hhst : st with
  | false =>
    have hol : hasOpenBrace l = true := by rw [hhst] at hb; simpa using hb
    simp [firstOpenIdx_cons_zero l rest hol]
  | true => simp

lemma extract_body_loop_eq (ls : List String) (c : Int) (st : Bool) :
    extract_body_loop ls c st =
      joinLinesNl ((match (List.range ls.length).find?
          (fun j => (st || startedAt ls j) && (c + depthAt ls j) == 0) with
        | some j => ls.take (j+1)
        | none => ls).drop (if st then 0 else firstOpenIdx ls)) := by
  induction ls generalizing c st with
  | nil =>
    simp [extract_body_loop, joinLinesNl]
  | cons l rest ih =>
    have hloop : extract_body_loop (l :: rest) c st =
        (if (st || hasOpenBrace l) && (c + braceDelta l) == 0 then
          (if (st || hasOpenBrace l) then l ++ "\n" else "")
        else
          (if (st || hasOpenBrace l) then l ++ "\n" else "")
            ++ extract_body_loop rest (c + braceDelta l) (st || hasOpenBrace l)) := rfl
    have hpred : (fun j => (st || startedAt (l :: rest) j)
          && (c + depthAt (l :: rest) j) == 0) ∘ Nat.succ
        = (fun j => ((st || hasOpenBrace l) || startedAt rest j)
            && ((c + braceDelta l) + depthAt rest j) == 0) := by
      funext j
      simp only [Function.comp_apply, startedAt_cons_succ, depthAt_cons_succ,
        Bool.or_assoc]
      rw [add_assoc]
    have hfind : (List.range (l :: rest).length).find?
          (fun j => (st || startedAt (l :: rest) j) && (c + depthAt (l :: rest) j) == 0)
        = (if (st || hasOpenBrace l) && (c + braceDelta l) == 0 then some 0
           else ((List.range rest.length).find?
             (fun j => ((st || hasOpenBrace l) || startedAt rest j)
               && ((c + braceDelta l) + depthAt rest j) == 0)).map Nat.succ) := by
      rw [show (l :: rest).length = rest.length + 1 from rfl, List.range_succ_eq_map]
      simp only [List.find?_cons, startedAt_cons_zero, depthAt_cons_zero]
      by_cases h0 : ((st || hasOpenBrace l) && (c + braceDelta l) == 0) = true
      · simp [h0]
      · have h0f : ((st || hasOpenBrace l) && (c + braceDelta l) == 0) = false :=
          Bool.eq_false_iff.mpr h0
        simp only [h0f, Bool.false_eq_true, if_false]
        rw [List.find?_map, hpred]
    rw [hloop, hfind]
    by_cases hstop : ((st || hasOpenBrace l) && (c + braceDelta l) == 0) = true
    · -- the loop stops on this very line
      have hst2 : (st || hasOpenBrace l) = true := by
        cases hb : (st || hasOpenBrace l) with
        | false => rw [hb] at hstop; simp at hstop
        | true => rfl
      rw [if_pos hstop, if_pos hstop, if_pos hst2, drop_idx_zero st l rest hst2]
      simp [joinLinesNl, string_append_empty]
    · -- the loop continues past this line
      rw [if_neg hstop, if_neg hstop]
      rw [ih (c + braceDelta l) (st || hasOpenBrace l)]
      cases hf : (List.range rest.length).find?
          (fun j => ((st || hasOpenBrace l) || startedAt rest j)
            && ((c + braceDelta l) + depthAt rest j) == 0) with
      | some j =>
        simp only [Option.map_some', Nat.succ_eq_add_one, List.take_succ_cons]
        cases hb : (st || hasOpenBrace l) with
        | true =>
          rw [drop_idx_zero st l rest hb]
          simp [joinLinesNl]
        | false =>
          have hstf : st = false := by
            cases hs : st with
            | false => rfl
            | true => rw [hs] at hb; simp at hb
          have holf : hasOpenBrace l = false := by
            cases ho2 : hasOpenBrace l with
            | false => rfl
            | true => rw [ho2] at hb; simp at hb
          rw [hstf, firstOpenIdx_cons_succ l rest holf]
          simp [List.drop_succ_cons, string_empty_append]
      | none =>
        simp only [Option.map_none']
        cases hb : (st || hasOpenBrace l) with
        | true =>
          rw [drop_idx_zero st l rest hb]
          simp [joinLinesNl]
        | false =>
          have hstf : st = false := by
            cases hs : st with
            | false => rfl
            | true => rw [hs] at hb; simp at hb
          have holf : hasOpenBrace l = false := by
            cases ho2 : hasOpenBrace l with
            | false => rfl
            | true => rw [ho2] at hb; simp at hb
          rw [hstf, firstOpenIdx_cons_succ l rest holf]
          simp [List.drop_succ_cons, string_empty_append]


/-- C8: brace-counting body extraction is total (a terminating function of
its inputs, `Ok` on every path in the source) and equals its declarative
specification: it consumes the lines from the first opening brace up to the
*least* index at which the outstanding brace depth has returned to zero
(that is the `stop_index` characterization in the second conjunct, by
minimality of `find?` over `range`); when no such index exists
(unterminated braces) it consumes to end-of-file, since `declarative_body`
then takes the whole remaining line list. -/
theorem extract_function_body_characterization (source_code : String) (start_line : Nat) :
    extract_function_body source_code start_line
        = declarative_body ((rustLines source_code).drop start_line)
    ∧ (∀ j, stop_index ((rustLines source_code).drop start_line) = some j →
        (startedAt ((rustLines source_code).drop start_line) j
          && depthAt ((rustLines source_code).drop start_line) j == 0) = true
        ∧ ∀ i < j, (startedAt ((rustLines source_code).drop start_line) i
            && depthAt ((rustLines source_code).drop start_line) i == 0) = false) := by
  constructor
  · unfold extract_function_body declarative_body stop_index
    rw [extract_body_loop_eq]
    have hfn : (fun j => (false || startedAt ((rustLines source_code).drop start_line) j)
          && ((0 : Int) + depthAt ((rustLines source_code).drop start_line) j) == 0)
        = (fun j => startedAt ((rustLines source_code).drop start_line) j
            && depthAt ((rustLines source_code).drop start_line) j == 0) := by
      funext j
      rw [Bool.false_or, zero_add]
    rw [hfn]
    simp
  · intro j hj
    exact find?_range_min _ _ j hj

/-- Witness for C8 at a concrete source: the body stops at line index 2,
where the brace depth first returns to zero, and the trailing line is not
consumed. -/
theorem extract_function_body_characterization_witness :
    extract_function_body "function f() \x7b\n  x;\n\x7d\nrest" 0
        = declarative_body ((rustLines "function f() \x7b\n  x;\n\x7d\nrest").drop 0)
    ∧ (startedAt ((rustLines "function f() \x7b\n  x;\n\x7d\nrest").drop 0) 2
        && depthAt ((rustLines "function f() \x7b\n  x;\n\x7d\nrest").drop 0) 2 == 0) = true := by
  have h := extract_function_body_characterization "function f() \x7b\n  x;\n\x7d\nrest" 0
  exact ⟨h.1, (h.2 2 (by decide)).1⟩

/-- A contract model whose source mentions `tx.origin`, so that the battery
is nonempty. -/
def c2w_model : ParsedContract :=
  { (default : ParsedContract) with name := "W", source_code := "tx.origin" }

/-- Witness for the amended C2 statement: a battery finding exists and its
category is not `Reentrancy`. -/
theorem run_basic_checks_never_reentrancy_witness :
    tx_origin_vuln c2w_model ∈ run_basic_checks c2w_model
    ∧ (tx_origin_vuln c2w_model).category ≠ VulnerabilityCategory.Reentrancy := by
  have hlist : run_basic_checks c2w_model = [tx_origin_vuln c2w_model] := by
    unfold run_basic_checks
    have h1 : strContainsSub c2w_model.source_code "tx.origin" = true := by decide
    have h2 : (strContainsSub c2w_model.source_code "suicide("
        || strContainsSub c2w_model.source_code "selfdestruct(") = false := by decide
    have h3 : (strContainsSub c2w_model.source_code ".call("
        && !strContainsSub c2w_model.source_code "require(") = false := by decide
    rw [if_pos h1, if_neg (by rw [h2]; exact Bool.false_ne_true),
      if_neg (by rw [h3]; exact Bool.false_ne_true)]
    have hfn : c2w_model.functions = ([] : List FunctionInfo) := rfl
    rw [hfn]
    simp
  have hmem : tx_origin_vuln c2w_model ∈ run_basic_checks c2w_model := by
    rw [hlist]
    exact List.mem_singleton.mpr rfl
  exact ⟨hmem,
    run_basic_checks_never_reentrancy c2w_model (tx_origin_vuln c2w_model) hmem⟩

end SecureChain
